import Mathlib

/-!
Verification of the ventriloquism library (a puppeteer wrapper adding
polling assertion helpers), shallowly embedded from `src/index.ts`.

Modelling conventions:
* An `Element` is the observable DOM state of a node: its text content and
  its attribute map.  The reader methods `text()`, `value()`, `class()`,
  `style()`, `attr(name)` of a wrapped handle are driver `evaluate` calls
  against this state; `getAttribute` can return JavaScript `null`, modelled
  as `Option.none`.
* A JavaScript `RegExp` is modelled by its source string together with its
  `test` predicate on strings.
* Matchers return `Except JsError (Option UnmatchError)`: `Except.error`
  models a thrown exception escaping the matcher, `Except.ok none` models
  the implicit `undefined` return (match), `Except.ok (some e)` a returned
  mismatch error.
* The polling loops of `shouldEqual` / `shouldMatch` /
  `ElementHandles.shouldHaveCount` share one shape (lines 130-141 and
  181-201 of the source); `pollAux` embeds it.  `Date.now()` readings are a
  schedule `now : Nat → Int` giving the clock value at the k-th evaluation
  of the `while` guard; `start` is the clock at loop entry.  The loop body
  sleeps 100 ms between iterations, so schedules of interest are strictly
  increasing, but no theorem needs to assume this.  Recursion is on an
  explicit fuel; `Option.none` as overall result means the fuel ran out
  before the loop finished.
* JavaScript arithmetic on a possibly-undefined `matchingTimeout` is kept:
  `start + undefined` is `NaN` and `NaN > now` is `false`, hence
  `guardHolds none start now = false`.
-/

namespace Ventriloquism

/-- Observable DOM state of an element: the text content and the attribute
map read by the wrapped handle through driver evaluate calls.
`getAttribute` returns `none` where JavaScript returns `null`. -/
structure Element where
  textContent : String
  getAttribute : String → Option String

/-- How a possibly-`null` attribute value prints inside a JavaScript
template literal: `null` prints as the string `"null"`. -/
def jsShow : Option String → String
  | none => "null"
  | some s => s

/-- `UnmatchError` from `src/index.ts` lines 8-20; only the `message` field
matters here (the `name` field is the constant string `"UnmatchError"`). -/
structure UnmatchError where
  message : String
deriving DecidableEq, Repr

/-- A thrown JavaScript exception (used to model exceptions escaping a
call, e.g. the `TypeError` raised by reading a property of `undefined`). -/
inductive JsError where
  | typeError (message : String)
deriving DecidableEq, Repr

/-- A JavaScript `RegExp`: its source text plus its `test` predicate. -/
structure RegExpV where
  source : String
  test : String → Bool

/-- How a `RegExp` prints inside a template literal. -/
def reShow (r : RegExpV) : String := "/" ++ r.source ++ "/"

/-- The `expected` argument of a matcher: a literal string or a RegExp
(the `string | RegExp` union in the `Matcher` interface, line 23). -/
inductive Expected where
  | str (s : String)
  | regex (r : RegExpV)

/-- Result of one matcher application. -/
def MatchResult := Except JsError (Option UnmatchError)

instance exceptDecEq {α β : Type} [DecidableEq α] [DecidableEq β] :
    DecidableEq (Except α β) := fun a b =>
  match a, b with
  | .ok x, .ok y =>
    if h : x = y then isTrue (by rw [h]) else isFalse (by intro hh; cases hh; exact h rfl)
  | .error x, .error y =>
    if h : x = y then isTrue (by rw [h]) else isFalse (by intro hh; cases hh; exact h rfl)
  | .ok _, .error _ => isFalse (by intro h; cases h)
  | .error _, .ok _ => isFalse (by intro h; cases h)

instance : DecidableEq MatchResult :=
  inferInstanceAs (DecidableEq (Except JsError (Option UnmatchError)))

/-- A matcher: element plus expected value to a match result (line 22-24). -/
def Matcher := Element → Expected → MatchResult

/-- The mismatch messages of the four concrete matchers and of
`createMatcher`, named so that theorems can speak about them. -/
def textUnmatchMsg (expected actual : String) : String :=
  "Failed to match with element text. Expected text is \"" ++ expected
    ++ "\", but was \"" ++ actual ++ "\" appeared."

def textUnmatchMsgRe (r : RegExpV) (actual : String) : String :=
  "Failed to match with element text. Expected matcher is \"" ++ reShow r
    ++ "\", but was \"" ++ actual ++ "\" appeared."

def valueUnmatchMsg (expected actual : String) : String :=
  "Failed to match with element value. Expected value is \"" ++ expected
    ++ "\", but was \"" ++ actual ++ "\" appeared."

def valueUnmatchMsgRe (r : RegExpV) (actual : String) : String :=
  "Failed to match with element value. Expected matcher is \"" ++ reShow r
    ++ "\", but was \"" ++ actual ++ "\" appeared."

def classUnmatchMsg (expected actual : String) : String :=
  "Failed to match with element class. Expected class is \"" ++ expected
    ++ "\", but was \"" ++ actual ++ "\" appeared."

def classUnmatchMsgRe (r : RegExpV) (actual : String) : String :=
  "Failed to match with element class. Expected matcher is \"" ++ reShow r
    ++ "\", but was \"" ++ actual ++ "\" appeared."

def styleUnmatchMsg (expected actual : String) : String :=
  "Failed to match with element style. Expected style is \"" ++ expected
    ++ "\", but was \"" ++ actual ++ "\" appeared."

def styleUnmatchMsgRe (r : RegExpV) (actual : String) : String :=
  "Failed to match with element style. Expected matcher is \"" ++ reShow r
    ++ "\", but was \"" ++ actual ++ "\" appeared."

def attrUnmatchMsg (attrName actual : String) : String :=
  "Failed to match with element attribute \"" ++ attrName
    ++ "\". Actual value was \"" ++ actual ++ "\"."

/-- The `Text` matcher, `src/index.ts` lines 26-41. -/
def Text : Matcher := fun element expected =>
  let text := element.textContent
  match expected with
  | .str s =>
    if s ≠ text then .ok (some ⟨textUnmatchMsg s text⟩)
    else .ok none
  | .regex r =>
    if ¬ r.test text then .ok (some ⟨textUnmatchMsgRe r text⟩)
    else .ok none

/-- The `Value` matcher, lines 43-58: reads `attr("value")`; comparing a
string against `null` with `!==` is always a mismatch, and the template
literal prints `null` as `"null"`. -/
def Value : Matcher := fun element expected =>
  let value := element.getAttribute "value"
  match expected with
  | .str s =>
    if some s ≠ value then .ok (some ⟨valueUnmatchMsg s (jsShow value)⟩)
    else .ok none
  | .regex r =>
    if ¬ r.test (jsShow value) then .ok (some ⟨valueUnmatchMsgRe r (jsShow value)⟩)
    else .ok none

/-- The `Class` matcher, lines 60-75: reads `attr("class")`. -/
def Class : Matcher := fun element expected =>
  let clazz := element.getAttribute "class"
  match expected with
  | .str s =>
    if some s ≠ clazz then .ok (some ⟨classUnmatchMsg s (jsShow clazz)⟩)
    else .ok none
  | .regex r =>
    if ¬ r.test (jsShow clazz) then .ok (some ⟨classUnmatchMsgRe r (jsShow clazz)⟩)
    else .ok none

/-- The `Style` matcher, lines 77-92: reads `attr("style")`. -/
def Style : Matcher := fun element expected =>
  let style := element.getAttribute "style"
  match expected with
  | .str s =>
    if some s ≠ style then .ok (some ⟨styleUnmatchMsg s (jsShow style)⟩)
    else .ok none
  | .regex r =>
    if ¬ r.test (jsShow style) then .ok (some ⟨styleUnmatchMsgRe r (jsShow style)⟩)
    else .ok none

/-- The `createMatcher` factory, lines 94-101.  The built matcher ignores
its `expected` parameter (the returned lambda binds only `element`); the
user predicate receives whatever `getAttribute` returned, `null` included,
so it is a predicate on `Option String`. -/
def createMatcher (attrName : String) (matchFn : Option String → Bool) : Matcher :=
  fun element _expected =>
    let attr := element.getAttribute attrName
    if ¬ matchFn attr then .ok (some ⟨attrUnmatchMsg attrName (jsShow attr)⟩)
    else .ok none

/-- `haystack` contains `needle` as a contiguous substring. -/
def containsStr (haystack needle : String) : Prop :=
  ∃ pre post, haystack = pre ++ needle ++ post

/-- The `LaunchOptions` record (line 249-251).  At runtime the
`matchingTimeout` field can be absent (`launch({})` type-checks against
nothing at runtime), so it is an `Option Int`: `none` models `undefined`. -/
structure LaunchOptions where
  matchingTimeout : Option Int
deriving DecidableEq, Repr

/-- The `while` guard `start + options.matchingTimeout > Date.now()`
(lines 133, 184, 195).  `start + undefined` is `NaN` in JavaScript and
`NaN > now` is `false`, hence the `none` case. -/
def guardHolds : Option Int → Int → Int → Bool
  | none, _, _ => false
  | some t, start, now => decide (now < start + t)

/-- Outcome of one run of the polling loop.  `checks` counts how many times
the check (matcher application or count query) was executed. -/
inductive PollResult (ε : Type) where
  | ret (checks : Nat)
  | thrown (error : Option ε) (checks : Nat)
  | abort (error : JsError) (checks : Nat)
deriving DecidableEq, Repr

/-- The shared polling loop (lines 130-141, 181-190, 191-201): while the
guard holds, run the check; a check yielding no error returns normally; a
check yielding an error stores it and retries after a 100 ms sleep; when
the guard fails, the last stored error is thrown (`thrown none` is
`throw undefined`: no check ever ran).  An exception escaping a check
propagates immediately (`abort`).  `now k` is the clock at the k-th guard
evaluation; recursion is on `fuel`, with `none` meaning the fuel ran out. -/
def pollAux (timeout : Option Int) (start : Int) (now : Nat → Int)
    (check : Nat → Except JsError (Option ε)) :
    Nat → Nat → Option ε → Option (PollResult ε)
  | 0, _, _ => none
  | fuel + 1, k, lastError =>
    if guardHolds timeout start (now k) then
      match check k with
      | .error e => some (.abort e (k + 1))
      | .ok none => some (.ret (k + 1))
      | .ok (some e) => pollAux timeout start now check fuel (k + 1) (some e)
    else some (.thrown lastError k)

/-- `shouldEqual(matcher, expected)` (lines 181-190): the poll loop whose
check applies `matcher` to the element with the literal `expected`.
`elemAt k` is the observable state of the element at the k-th iteration. -/
def shouldEqualRun (options : LaunchOptions) (matcher : Matcher) (expected : String)
    (elemAt : Nat → Element) (start : Int) (now : Nat → Int) (fuel : Nat) :
    Option (PollResult UnmatchError) :=
  pollAux options.matchingTimeout start now
    (fun k => matcher (elemAt k) (.str expected)) fuel 0 none

/-- `shouldMatch` normalization (line 193): a string `expected` is compiled
into a RegExp by the `RegExp` constructor, modelled by `compile`. -/
def normalizeExpected (compile : String → RegExpV) : Expected → Expected
  | .str s => .regex (compile s)
  | .regex r => .regex r

/-- `shouldMatch(matcher, expected)` (lines 191-201): same loop as
`shouldEqual`, with `expected` normalized to a RegExp first. -/
def shouldMatchRun (compile : String → RegExpV) (options : LaunchOptions)
    (matcher : Matcher) (expected : Expected)
    (elemAt : Nat → Element) (start : Int) (now : Nat → Int) (fuel : Nat) :
    Option (PollResult UnmatchError) :=
  pollAux options.matchingTimeout start now
    (fun k => matcher (elemAt k) (normalizeExpected compile expected)) fuel 0 none

/-- A parent of a lazy collection: a wrapped page or a wrapped element,
identified by the opaque reference of its underlying driver object. -/
inductive ParentRef where
  | page (ref : Nat)
  | element (ref : Nat)
deriving DecidableEq, Repr

/-- The live DOM, seen through `$$`: querying a parent with a selector
yields the current list of matching native element handles (opaque
references). -/
def DomQuery := ParentRef → String → List Nat

/-- The error of `shouldHaveCount` (line 136): a plain `Error`. -/
structure JsPlainError where
  message : String
deriving DecidableEq, Repr

/-- The `ElementHandles` lazy collection class (lines 118-152): it stores
only the selector, the parent reference and the options — no query
results. -/
structure ElementHandles where
  selector : String
  parent : ParentRef
  options : LaunchOptions
deriving DecidableEq, Repr

/-- `this.parent.$$(this.selector)` against the live DOM `dom`: a fresh
query through the parent, performed anew at every call. -/
def ElementHandles.resolveLive (c : ElementHandles) (dom : DomQuery) : List Nat :=
  dom c.parent c.selector

/-- The message of the count mismatch `Error` (line 136). -/
def countMsg (count size : Nat) : String :=
  "Failed to match element counts. Expected count is " ++ toString count
    ++ " but was " ++ toString size

/-- The check of `shouldHaveCount` (lines 134-137):
`size !== count ? new Error(...) : undefined`. -/
def countCheck (count size : Nat) : Option JsPlainError :=
  if size ≠ count then some ⟨countMsg count size⟩
  else none

/-- `ElementHandles.shouldHaveCount(count)` (lines 130-142): the poll loop
whose check freshly resolves the live set and compares its length with
`count`.  `domAt k` is the live DOM at the k-th iteration. -/
def ElementHandles.shouldHaveCountRun (c : ElementHandles) (count : Nat)
    (domAt : Nat → DomQuery) (start : Int) (now : Nat → Int) (fuel : Nat) :
    Option (PollResult JsPlainError) :=
  pollAux c.options.matchingTimeout start now
    (fun k => .ok (countCheck count (c.resolveLive (domAt k)).length)) fuel 0 none

/-- A wrapped element handle (`wrapElementHandle`, lines 154-208): the
underlying native handle reference plus the options closed over. -/
structure WElement where
  ref : Nat
  options : LaunchOptions
deriving DecidableEq, Repr

/-- A wrapped page (`wrapPage`, lines 217-232). -/
structure WPage where
  ref : Nat
  options : LaunchOptions
deriving DecidableEq, Repr

/-- A wrapped browser (`wrapBrowser`, lines 238-247). -/
structure WBrowser where
  ref : Nat
  options : LaunchOptions
deriving DecidableEq, Repr

/-- `wrapElementHandle(elementHandle, options)` applied to a real native
handle: the wrapper delegates to the handle and closes over `options`. -/
def wrapElementHandle (elementHandle : Nat) (options : LaunchOptions) : WElement :=
  ⟨elementHandle, options⟩

/-- `wrapPage(page, options)` (lines 217-232). -/
def wrapPage (page : Nat) (options : LaunchOptions) : WPage :=
  ⟨page, options⟩

/-- `wrapBrowser(browser, options)` (lines 238-247). -/
def wrapBrowser (browser : Nat) (options : LaunchOptions) : WBrowser :=
  ⟨browser, options⟩

/-- `newPage()` on a wrapped browser (lines 241-243): wraps the native page
produced by the driver with the options of the browser wrapper. -/
def WBrowser.newPage (b : WBrowser) (nativePage : Nat) : WPage :=
  wrapPage nativePage b.options

/-- `$` on a wrapped page (lines 220-222): wraps the native result with the
options of the page wrapper. -/
def WPage.dollarOne (p : WPage) (nativeResult : Nat) : WElement :=
  wrapElementHandle nativeResult p.options

/-- `$$` on a wrapped page (lines 223-225). -/
def WPage.dollarAll (p : WPage) (nativeResults : List Nat) : List WElement :=
  nativeResults.map (fun it => wrapElementHandle it p.options)

/-- `$$lazy` on a wrapped page (lines 226-228): a collection with the page
as parent and the same options. -/
def WPage.dollarLazy (p : WPage) (selector : String) : ElementHandles :=
  ⟨selector, .page p.ref, p.options⟩

/-- `$` on a wrapped element (lines 160-162). -/
def WElement.dollarOne (el : WElement) (nativeResult : Nat) : WElement :=
  wrapElementHandle nativeResult el.options

/-- `$$` on a wrapped element (lines 163-165). -/
def WElement.dollarAll (el : WElement) (nativeResults : List Nat) : List WElement :=
  nativeResults.map (fun it => wrapElementHandle it el.options)

/-- `$$lazy` on a wrapped element (lines 166-168). -/
def WElement.dollarLazy (el : WElement) (selector : String) : ElementHandles :=
  ⟨selector, .element el.ref, el.options⟩

/-- The elements handed to the callback of `ElementHandles.forEach`
(lines 146-151): the live set is resolved once, then each item is wrapped
with `this.options`. -/
def ElementHandles.forEachWrapped (c : ElementHandles) (dom : DomQuery) : List WElement :=
  (c.resolveLive dom).map (fun it => wrapElementHandle it c.options)

/-- A JavaScript value that `wrapElementHandle` can receive at runtime:
a native element handle, or `undefined`. -/
inductive JsElemVal where
  | undefinedVal
  | handle (ref : Nat)
deriving DecidableEq, Repr

/-- The expression `this.parent.$$(this.selector)[index]` of
`ElementHandles.get` (line 128).  Member access binds tighter than `await`,
so the numeric index is read from the pending Promise object returned by
`$$`, not from the array it resolves to; a Promise has no numeric
properties, so the read yields `undefined` for every index.  `resolved` is
the array the Promise would resolve to; it is never consulted. -/
def promiseIndexAccess (_resolved : List Nat) (_index : Nat) : JsElemVal :=
  .undefinedVal

/-- Runtime behaviour of `wrapElementHandle` on a possibly-`undefined`
argument: spreading `undefined` yields `{}`, but line 206 then reads
`(elementHandle as any).__proto__`, which on `undefined` throws a
`TypeError`. -/
def wrapElementHandleVal (v : JsElemVal) (options : LaunchOptions) :
    Except JsError WElement :=
  match v with
  | .handle r => .ok (wrapElementHandle r options)
  | .undefinedVal => .error (.typeError "Cannot read properties of undefined (reading __proto__)")

/-- `ElementHandles.get(index)` (lines 127-129):
`wrapElementHandle(await this.parent.$$(this.selector)[index], this.options)`. -/
def ElementHandles.getRun (c : ElementHandles) (dom : DomQuery) (index : Nat) :
    Except JsError WElement :=
  wrapElementHandleVal (promiseIndexAccess (c.resolveLive dom) index) c.options

/-- What the spec describes for `get(index)` (§4.4): resolve the live set
for the selector under the parent and return the wrapped element at
`index`, or `undefined` (`none`) when out of range.  This is the intended
behaviour, used to exhibit the divergence of `getRun`; it is what the code
computes once the missing parentheses around the `await` are restored, as
in `shouldHaveCount` line 134. -/
def ElementHandles.getIntended (c : ElementHandles) (dom : DomQuery) (index : Nat) :
    Option WElement :=
  (c.resolveLive dom).get? index |>.map (fun r => wrapElementHandle r c.options)

/-- `launch` options defaulting (line 253): `options || { matchingTimeout:
10000 }`.  `undefined` is falsy, every object — `{}` included — is truthy. -/
def launchConfig (options : Option LaunchOptions) : LaunchOptions :=
  options.getD ⟨some 10000⟩

/-- `launch(options?)` (lines 252-254): wraps the native browser produced
by the driver with the defaulted options. -/
def launchRun (options : Option LaunchOptions) (nativeBrowser : Nat) : WBrowser :=
  wrapBrowser nativeBrowser (launchConfig options)

/-! Helper lemmas about the polling loop. -/

/-- If every check from `j` up to (but excluding) `K` yields a mismatch
error, the guard holds on those iterations and fails at `K`, then the loop
throws the error of check `K - 1` (or the incoming `lastError` when it ran
no check at all). -/
lemma pollAux_never {ε : Type} (timeout : Option Int) (start : Int) (now : Nat → Int)
    (check : Nat → Except JsError (Option ε)) (errs : Nat → ε) (K : Nat)
    (hstop : guardHolds timeout start (now K) = false) :
    ∀ fuel j lastError, j ≤ K → K - j < fuel →
      (∀ k, j ≤ k → k < K → check k = .ok (some (errs k))) →
      (∀ k, j ≤ k → k < K → guardHolds timeout start (now k) = true) →
      pollAux timeout start now check fuel j lastError =
        some (.thrown (if j < K then some (errs (K - 1)) else lastError) K) := by
  intro fuel
  induction fuel with
  | zero => intro j l hjK hf _ _; omega
  | succ f ih =>
    intro j l hjK hf hcheck hguard
    by_cases hj : j < K
    · have hg := hguard j le_rfl hj
      have hc := hcheck j le_rfl hj
      rw [pollAux, hg, if_pos rfl, hc]
      have hrec := ih (j + 1) (some (errs j)) hj (by omega)
        (fun k hk1 hk2 => hcheck k (by omega) hk2)
        (fun k hk1 hk2 => hguard k (by omega) hk2)
      show pollAux timeout start now check f (j + 1) (some (errs j)) = _
      rw [hrec]
      by_cases hj1 : j + 1 < K
      · simp [hj, hj1]
      · have hK1 : K - 1 = j := by omega
        simp [hj, hj1, hK1]
    · have hjeq : j = K := by omega
      subst hjeq
      rw [pollAux, hstop]
      simp [hj]

/-- If every check from `j` up to `M` yields a mismatch error, check `M`
succeeds, and the guard holds through iteration `M`, then the loop returns
normally after `M + 1` checks. -/
lemma pollAux_success {ε : Type} (timeout : Option Int) (start : Int) (now : Nat → Int)
    (check : Nat → Except JsError (Option ε)) (errs : Nat → ε) (M : Nat)
    (hhit : check M = .ok none) :
    ∀ fuel j lastError, j ≤ M → M - j < fuel →
      (∀ k, j ≤ k → k < M → check k = .ok (some (errs k))) →
      (∀ k, j ≤ k → k ≤ M → guardHolds timeout start (now k) = true) →
      pollAux timeout start now check fuel j lastError = some (.ret (M + 1)) := by
  intro fuel
  induction fuel with
  | zero => intro j l hjM hf _ _; omega
  | succ f ih =>
    intro j l hjM hf hcheck hguard
    by_cases hj : j < M
    · have hg := hguard j le_rfl (le_of_lt hj)
      have hc := hcheck j le_rfl hj
      rw [pollAux, hg, if_pos rfl, hc]
      exact ih (j + 1) (some (errs j)) hj (by omega)
        (fun k hk1 hk2 => hcheck k (by omega) hk2)
        (fun k hk1 hk2 => hguard k (by omega) hk2)
    · have hjeq : j = M := by omega
      subst hjeq
      have hg := hguard j le_rfl le_rfl
      rw [pollAux, hg, if_pos rfl, hhit]

/-- With `undefined` or a non-positive `matchingTimeout` the guard fails on
the very first evaluation, for any clock reading at or after `start`. -/
lemma guardHolds_initial_false (timeout : Option Int) (start now0 : Int)
    (h : timeout = none ∨ ∃ t, timeout = some t ∧ t ≤ 0)
    (hnow : start ≤ now0) :
    guardHolds timeout start now0 = false := by
  rcases h with h | ⟨t, ht, htle⟩
  · subst h; rfl
  · subst ht
    simp only [guardHolds, decide_eq_false_iff_not, not_lt]
    omega

/-! Helper lemmas for matcher results and substring containment. -/

/-- A matcher body of the shape `if mismatch then error else undefined`
yields no error exactly when the mismatch condition fails. -/
lemma ite_matcher_none_iff (c : Prop) [Decidable c] (e : UnmatchError) :
    ((if c then (Except.ok (some e) : MatchResult) else Except.ok none) = Except.ok none)
      ↔ ¬ c := by
  by_cases h : c <;> simp [h]

/-- On a mismatch the same shape yields the error. -/
lemma ite_matcher_mismatch (c : Prop) [Decidable c] (e : UnmatchError) (h : c) :
    (if c then (Except.ok (some e) : MatchResult) else Except.ok none)
      = Except.ok (some e) := by
  simp [h]

/-- A five-part concatenation contains its second part. -/
lemma containsStr_second (a x b y c : String) : containsStr (a ++ x ++ b ++ y ++ c) x :=
  ⟨a, b ++ y ++ c, by simp [String.append_assoc]⟩

/-- A five-part concatenation contains its fourth part. -/
lemma containsStr_fourth (a x b y c : String) : containsStr (a ++ x ++ b ++ y ++ c) y :=
  ⟨a ++ x ++ b, c, by simp [String.append_assoc]⟩

/-- A four-part concatenation contains its second part. -/
lemma containsStr_second4 (a x b y : String) : containsStr (a ++ x ++ b ++ y) x :=
  ⟨a, b ++ y, by simp [String.append_assoc]⟩

/-- A four-part concatenation contains its last part. -/
lemma containsStr_last4 (a x b y : String) : containsStr (a ++ x ++ b ++ y) y :=
  ⟨a ++ x ++ b, "", by simp [String.append_assoc]⟩

/-- A concrete element used to evaluate the theorems on closed inputs:
text `"About"`, a `class` attribute `"nav"`, no other attributes. -/
def sampleEl : Element :=
  ⟨"About", fun a => if a = "class" then some "nav" else none⟩

/-- Claim C1: with a literal `expected` string, each of `Text`, `Value`,
`Class`, `Style` returns no error exactly when the corresponding attribute
(text content, `value`, `class`, `style`) equals `expected`, and on a
difference returns an `UnmatchError` whose message contains both the
expected value and the observed value (a missing attribute is observed as
`"null"`). -/
theorem claim_matchers_literal (el : Element) (exp : String) :
    (Text el (.str exp) = .ok none ↔ el.textContent = exp) ∧
    (el.textContent ≠ exp →
      Text el (.str exp) = .ok (some ⟨textUnmatchMsg exp el.textContent⟩) ∧
      containsStr (textUnmatchMsg exp el.textContent) exp ∧
      containsStr (textUnmatchMsg exp el.textContent) el.textContent) ∧
    (Value el (.str exp) = .ok none ↔ el.getAttribute "value" = some exp) ∧
    (el.getAttribute "value" ≠ some exp →
      Value el (.str exp)
        = .ok (some ⟨valueUnmatchMsg exp (jsShow (el.getAttribute "value"))⟩) ∧
      containsStr (valueUnmatchMsg exp (jsShow (el.getAttribute "value"))) exp ∧
      containsStr (valueUnmatchMsg exp (jsShow (el.getAttribute "value")))
        (jsShow (el.getAttribute "value"))) ∧
    (Class el (.str exp) = .ok none ↔ el.getAttribute "class" = some exp) ∧
    (el.getAttribute "class" ≠ some exp →
      Class el (.str exp)
        = .ok (some ⟨classUnmatchMsg exp (jsShow (el.getAttribute "class"))⟩) ∧
      containsStr (classUnmatchMsg exp (jsShow (el.getAttribute "class"))) exp ∧
      containsStr (classUnmatchMsg exp (jsShow (el.getAttribute "class")))
        (jsShow (el.getAttribute "class"))) ∧
    (Style el (.str exp) = .ok none ↔ el.getAttribute "style" = some exp) ∧
    (el.getAttribute "style" ≠ some exp →
      Style el (.str exp)
        = .ok (some ⟨styleUnmatchMsg exp (jsShow (el.getAttribute "style"))⟩) ∧
      containsStr (styleUnmatchMsg exp (jsShow (el.getAttribute "style"))) exp ∧
      containsStr (styleUnmatchMsg exp (jsShow (el.getAttribute "style")))
        (jsShow (el.getAttribute "style"))) := by
  refine ⟨?_, ?_, ?_, ?_, ?_, ?_, ?_, ?_⟩
  · exact (ite_matcher_none_iff (exp ≠ el.textContent) _).trans (not_ne_iff.trans eq_comm)
  · intro h
    refine ⟨ite_matcher_mismatch _ _ (Ne.symm h), ?_, ?_⟩
    · simp only [textUnmatchMsg]; exact containsStr_second _ _ _ _ _
    · simp only [textUnmatchMsg]; exact containsStr_fourth _ _ _ _ _
  · exact (ite_matcher_none_iff (some exp ≠ el.getAttribute "value") _).trans
      (not_ne_iff.trans eq_comm)
  · intro h
    refine ⟨ite_matcher_mismatch _ _ (Ne.symm h), ?_, ?_⟩
    · simp only [valueUnmatchMsg]; exact containsStr_second _ _ _ _ _
    · simp only [valueUnmatchMsg]; exact containsStr_fourth _ _ _ _ _
  · exact (ite_matcher_none_iff (some exp ≠ el.getAttribute "class") _).trans
      (not_ne_iff.trans eq_comm)
  · intro h
    refine ⟨ite_matcher_mismatch _ _ (Ne.symm h), ?_, ?_⟩
    · simp only [classUnmatchMsg]; exact containsStr_second _ _ _ _ _
    · simp only [classUnmatchMsg]; exact containsStr_fourth _ _ _ _ _
  · exact (ite_matcher_none_iff (some exp ≠ el.getAttribute "style") _).trans
      (not_ne_iff.trans eq_comm)
  · intro h
    refine ⟨ite_matcher_mismatch _ _ (Ne.symm h), ?_, ?_⟩
    · simp only [styleUnmatchMsg]; exact containsStr_second _ _ _ _ _
    · simp only [styleUnmatchMsg]; exact containsStr_fourth _ _ _ _ _

/-- Witness for claim C1, on the concrete element `sampleEl`. -/
theorem claim_matchers_literal_witness :
    Text sampleEl (.str "About") = .ok none ∧
    Text sampleEl (.str "nope") = .ok (some ⟨textUnmatchMsg "nope" "About"⟩) ∧
    containsStr (textUnmatchMsg "nope" "About") "nope" ∧
    containsStr (textUnmatchMsg "nope" "About") "About" ∧
    Value sampleEl (.str "nope") = .ok (some ⟨valueUnmatchMsg "nope" "null"⟩) ∧
    Class sampleEl (.str "nav") = .ok none ∧
    Class sampleEl (.str "nope") = .ok (some ⟨classUnmatchMsg "nope" "nav"⟩) ∧
    Style sampleEl (.str "nope") = .ok (some ⟨styleUnmatchMsg "nope" "null"⟩) := by
  refine ⟨?_, ?_, ?_, ?_, ?_, ?_, ?_, ?_⟩
  · exact (claim_matchers_literal sampleEl "About").1.mpr rfl
  · exact ((claim_matchers_literal sampleEl "nope").2.1 (by decide)).1
  · exact ((claim_matchers_literal sampleEl "nope").2.1 (by decide)).2.1
  · exact ((claim_matchers_literal sampleEl "nope").2.1 (by decide)).2.2
  · exact ((claim_matchers_literal sampleEl "nope").2.2.2.1 (by decide)).1
  · exact (claim_matchers_literal sampleEl "nav").2.2.2.2.1.mpr rfl
  · exact ((claim_matchers_literal sampleEl "nope").2.2.2.2.2.1 (by decide)).1
  · exact ((claim_matchers_literal sampleEl "nope").2.2.2.2.2.2.2 (by decide)).1

/-- Result classifier: did the matcher return (rather than throw)? -/
def MatchResult.isOk : MatchResult → Bool
  | .ok _ => true
  | .error _ => false

/-- Claim C7: no matcher throws — for every element and expected value,
`Text`, `Value`, `Class`, `Style` and any matcher built by `createMatcher`
return a value (`Except.ok`, carrying either an `UnmatchError` or nothing)
and never propagate an exception from their own logic. -/
theorem claim_matchers_never_throw (el : Element) (exp : Expected)
    (attrName : String) (matchFn : Option String → Bool) :
    (Text el exp).isOk = true ∧ (Value el exp).isOk = true ∧
    (Class el exp).isOk = true ∧ (Style el exp).isOk = true ∧
    (createMatcher attrName matchFn el exp).isOk = true := by
  refine ⟨?_, ?_, ?_, ?_, ?_⟩
  · cases exp <;> · simp only [Text]; split <;> rfl
  · cases exp <;> · simp only [Value]; split <;> rfl
  · cases exp <;> · simp only [Class]; split <;> rfl
  · cases exp <;> · simp only [Style]; split <;> rfl
  · simp only [createMatcher]; split <;> rfl

/-- Claim C10: a matcher built by `createMatcher` ignores its `expected`
argument — any two expected values give the same result — and its outcome
is determined by the predicate applied to the attribute value alone. -/
theorem claim_createMatcher_ignores_expected (attrName : String)
    (matchFn : Option String → Bool) (el : Element) (e1 e2 : Expected) :
    createMatcher attrName matchFn el e1 = createMatcher attrName matchFn el e2 ∧
    createMatcher attrName matchFn el e1 =
      (if matchFn (el.getAttribute attrName) then Except.ok none
       else Except.ok
         (some ⟨attrUnmatchMsg attrName (jsShow (el.getAttribute attrName))⟩)) := by
  constructor
  · rfl
  · simp only [createMatcher]
    by_cases h : matchFn (el.getAttribute attrName) <;> simp [h]

/-- Claim C2: when the element's attribute never satisfies the matcher on
any check executed before the deadline, `shouldEqual` and `shouldMatch`
reject, and the value thrown is exactly the error returned by the matcher
on the last executed check (check `K - 1`, where `K` is the first guard
evaluation past the deadline). -/
theorem claim_timeout_rejects_last_error
    (options : LaunchOptions) (m : Matcher) (compile : String → RegExpV)
    (expS : String) (expM : Expected) (elemAt : Nat → Element)
    (start : Int) (now : Nat → Int) (errsE errsM : Nat → UnmatchError) (K fuel : Nat)
    (hK : 0 < K) (hfuel : K < fuel)
    (hguard : ∀ k, k < K → guardHolds options.matchingTimeout start (now k) = true)
    (hstop : guardHolds options.matchingTimeout start (now K) = false)
    (hE : ∀ k, k < K → m (elemAt k) (.str expS) = .ok (some (errsE k)))
    (hM : ∀ k, k < K → m (elemAt k) (normalizeExpected compile expM) = .ok (some (errsM k))) :
    shouldEqualRun options m expS elemAt start now fuel
      = some (.thrown (some (errsE (K - 1))) K) ∧
    shouldMatchRun compile options m expM elemAt start now fuel
      = some (.thrown (some (errsM (K - 1))) K) := by
  constructor
  · have h := pollAux_never options.matchingTimeout start now
      (fun k => m (elemAt k) (.str expS)) errsE K hstop fuel 0 none
      (Nat.zero_le K) (by omega) (fun k _ hk => hE k hk) (fun k _ hk => hguard k hk)
    simp only [shouldEqualRun]
    rw [h, if_pos hK]
  · have h := pollAux_never options.matchingTimeout start now
      (fun k => m (elemAt k) (normalizeExpected compile expM)) errsM K hstop fuel 0 none
      (Nat.zero_le K) (by omega) (fun k _ hk => hM k hk) (fun k _ hk => hguard k hk)
    simp only [shouldMatchRun]
    rw [h, if_pos hK]

/-- Witness for claim C2: the text stays `"About"` while `"nope"` is
expected; with a 250 ms timeout and checks at 0, 100, 200 ms the loop
rejects at the 300 ms guard with the error of the third (last) check. -/
theorem claim_timeout_rejects_last_error_witness :
    shouldEqualRun ⟨some 250⟩ Text "nope" (fun _ => sampleEl) 0
      (fun k => 100 * (k : Int)) 4
      = some (.thrown (some ⟨textUnmatchMsg "nope" "About"⟩) 3) ∧
    shouldMatchRun (fun s => ⟨s, fun x => x == s⟩) ⟨some 250⟩ Text (.str "nope")
      (fun _ => sampleEl) 0 (fun k => 100 * (k : Int)) 4
      = some (.thrown
          (some ⟨textUnmatchMsgRe ⟨"nope", fun x => x == "nope"⟩ "About"⟩) 3) := by
  exact claim_timeout_rejects_last_error ⟨some 250⟩ Text
    (fun s => ⟨s, fun x => x == s⟩) "nope" (.str "nope") (fun _ => sampleEl) 0
    (fun k => 100 * (k : Int))
    (fun _ => ⟨textUnmatchMsg "nope" "About"⟩)
    (fun _ => ⟨textUnmatchMsgRe ⟨"nope", fun x => x == "nope"⟩ "About"⟩)
    3 4 (by decide) (by decide)
    (by decide) (by decide) (by decide) (by decide)

/-- Claim C9: when `matchingTimeout` is `undefined` (for example after
`launch({})`, where the `{}` object is truthy and suppresses the default),
zero, or negative, the guard is false on its very first evaluation, so
`shouldEqual`, `shouldMatch` and `shouldHaveCount` run zero checks and
reject by throwing `undefined` (`thrown none 0`), not an `Error` value. -/
theorem claim_degenerate_timeout
    (options : LaunchOptions) (m : Matcher) (compile : String → RegExpV)
    (expS : String) (expM : Expected) (elemAt : Nat → Element)
    (c : ElementHandles) (n : Nat) (domAt : Nat → DomQuery)
    (start : Int) (now : Nat → Int) (fuel : Nat)
    (hopt : options.matchingTimeout = none
      ∨ ∃ t, options.matchingTimeout = some t ∧ t ≤ 0)
    (hcopt : c.options.matchingTimeout = none
      ∨ ∃ t, c.options.matchingTimeout = some t ∧ t ≤ 0)
    (hnow : start ≤ now 0) :
    shouldEqualRun options m expS elemAt start now (fuel + 1)
      = some (.thrown none 0) ∧
    shouldMatchRun compile options m expM elemAt start now (fuel + 1)
      = some (.thrown none 0) ∧
    c.shouldHaveCountRun n domAt start now (fuel + 1) = some (.thrown none 0) := by
  have hg := guardHolds_initial_false options.matchingTimeout start (now 0) hopt hnow
  have hgc := guardHolds_initial_false c.options.matchingTimeout start (now 0) hcopt hnow
  refine ⟨?_, ?_, ?_⟩
  · simp only [shouldEqualRun]; rw [pollAux, hg]; simp
  · simp only [shouldMatchRun]; rw [pollAux, hg]; simp
  · simp only [ElementHandles.shouldHaveCountRun]; rw [pollAux, hgc]; simp

/-- Witness for claim C9, with the configuration produced by `launch({})`:
no check runs and `undefined` is thrown. -/
theorem claim_degenerate_timeout_witness :
    shouldEqualRun (launchConfig (some ⟨none⟩)) Text "x" (fun _ => sampleEl) 0
      (fun _ => 0) 1 = some (.thrown none 0) ∧
    shouldMatchRun (fun s => ⟨s, fun x => x == s⟩) (launchConfig (some ⟨none⟩)) Text
      (.str "x") (fun _ => sampleEl) 0 (fun _ => 0) 1 = some (.thrown none 0) ∧
    ElementHandles.shouldHaveCountRun
      ⟨"li", .page 0, launchConfig (some ⟨none⟩)⟩ 2 (fun _ _ _ => [7]) 0
      (fun _ => 0) 1 = some (.thrown none 0) := by
  exact claim_degenerate_timeout (launchConfig (some ⟨none⟩)) Text
    (fun s => ⟨s, fun x => x == s⟩) "x" (.str "x") (fun _ => sampleEl)
    ⟨"li", .page 0, launchConfig (some ⟨none⟩)⟩ 2 (fun _ _ _ => [7]) 0
    (fun _ => 0) 0 (Or.inl rfl) (Or.inl rfl) (by decide)

/-- Claim C3: `shouldHaveCount(n)` resolves successfully when some
iteration before the deadline observes a live count equal to `n` (part 1,
with `M` the first such iteration), and when no iteration before the
deadline observes `n` it rejects with an error whose message reports the
expected count `n` and the last observed count (part 2). -/
theorem claim_shouldHaveCount_spec
    (c : ElementHandles) (n : Nat) (domAt : Nat → DomQuery)
    (start : Int) (now : Nat → Int) (fuel M K : Nat) :
    (M < fuel →
      (∀ k, k ≤ M → guardHolds c.options.matchingTimeout start (now k) = true) →
      (∀ k, k < M → (c.resolveLive (domAt k)).length ≠ n) →
      (c.resolveLive (domAt M)).length = n →
      c.shouldHaveCountRun n domAt start now fuel = some (.ret (M + 1))) ∧
    (0 < K → K < fuel →
      (∀ k, k < K → guardHolds c.options.matchingTimeout start (now k) = true) →
      guardHolds c.options.matchingTimeout start (now K) = false →
      (∀ k, k < K → (c.resolveLive (domAt k)).length ≠ n) →
      c.shouldHaveCountRun n domAt start now fuel
        = some (.thrown
            (some ⟨countMsg n ((c.resolveLive (domAt (K - 1))).length)⟩) K) ∧
      containsStr (countMsg n ((c.resolveLive (domAt (K - 1))).length)) (toString n) ∧
      containsStr (countMsg n ((c.resolveLive (domAt (K - 1))).length))
        (toString ((c.resolveLive (domAt (K - 1))).length))) := by
  constructor
  · intro hf hguard hmiss hhit
    have h := pollAux_success c.options.matchingTimeout start now
      (fun k => .ok (countCheck n (c.resolveLive (domAt k)).length))
      (fun k => ⟨countMsg n ((c.resolveLive (domAt k)).length)⟩) M
      (by simp [countCheck, hhit]) fuel 0 none (Nat.zero_le M) (by omega)
      (fun k _ hk => by simp [countCheck, hmiss k hk])
      (fun k _ hk => hguard k hk)
    simp only [ElementHandles.shouldHaveCountRun]
    exact h
  · intro hK hf hguard hstop hmiss
    refine ⟨?_, ?_, ?_⟩
    · have h := pollAux_never c.options.matchingTimeout start now
        (fun k => .ok (countCheck n (c.resolveLive (domAt k)).length))
        (fun k => ⟨countMsg n ((c.resolveLive (domAt k)).length)⟩) K
        hstop fuel 0 none (Nat.zero_le K) (by omega)
        (fun k _ hk => by simp [countCheck, hmiss k hk])
        (fun k _ hk => hguard k hk)
      simp only [ElementHandles.shouldHaveCountRun]
      rw [h, if_pos hK]
    · simp only [countMsg]; exact containsStr_second4 _ _ _ _
    · simp only [countMsg]; exact containsStr_last4 _ _ _ _

/-- Witness for claim C3: with selector `"li"` and a 250 ms timeout, a
collection whose live count becomes 2 at the second iteration resolves,
and one whose live count stays 1 rejects reporting counts 2 and 1. -/
theorem claim_shouldHaveCount_spec_witness :
    ElementHandles.shouldHaveCountRun ⟨"li", .page 0, ⟨some 250⟩⟩ 2
      (fun k _ _ => if k = 0 then [7] else [7, 8]) 0 (fun k => 100 * (k : Int)) 2
      = some (.ret 2) ∧
    (ElementHandles.shouldHaveCountRun ⟨"li", .page 0, ⟨some 250⟩⟩ 2
      (fun _ _ _ => [7]) 0 (fun k => 100 * (k : Int)) 4
      = some (.thrown (some ⟨countMsg 2 1⟩) 3) ∧
     containsStr (countMsg 2 1) (toString 2) ∧
     containsStr (countMsg 2 1) (toString 1)) := by
  constructor
  · exact (claim_shouldHaveCount_spec ⟨"li", .page 0, ⟨some 250⟩⟩ 2
      (fun k _ _ => if k = 0 then [7] else [7, 8]) 0 (fun k => 100 * (k : Int))
      2 1 0).1 (by decide) (by decide) (by decide) (by decide)
  · exact (claim_shouldHaveCount_spec ⟨"li", .page 0, ⟨some 250⟩⟩ 2
      (fun _ _ _ => [7]) 0 (fun k => 100 * (k : Int))
      4 0 3).2 (by decide) (by decide) (by decide) (by decide) (by decide)

/-- Claim C5: a `LazyCollection` caches nothing.  Part 1: the outcome of
`shouldHaveCount` depends only on what the live DOM answers for the
collection's parent and selector at each iteration (a fresh query every
check).  Parts 2 and 3: with the same collection object, a run over a DOM
where the count differs from `n` rejects, and a later run over the mutated
DOM where the count equals `n` resolves — the mutation is reflected
without creating a new collection. -/
theorem claim_lazy_no_cache
    (c : ElementHandles) (n : Nat) (d1 d2 : DomQuery)
    (start1 : Int) (now1 : Nat → Int) (K fuel1 : Nat)
    (start2 : Int) (now2 : Nat → Int) (fuel2 : Nat) :
    (∀ domAt domAt2 : Nat → DomQuery,
      (∀ k, domAt k c.parent c.selector = domAt2 k c.parent c.selector) →
      ∀ count st nw f, c.shouldHaveCountRun count domAt st nw f
        = c.shouldHaveCountRun count domAt2 st nw f) ∧
    ((c.resolveLive d1).length ≠ n → 0 < K → K < fuel1 →
      (∀ k, k < K → guardHolds c.options.matchingTimeout start1 (now1 k) = true) →
      guardHolds c.options.matchingTimeout start1 (now1 K) = false →
      c.shouldHaveCountRun n (fun _ => d1) start1 now1 fuel1
        = some (.thrown (some ⟨countMsg n ((c.resolveLive d1).length)⟩) K)) ∧
    ((c.resolveLive d2).length = n → 0 < fuel2 →
      guardHolds c.options.matchingTimeout start2 (now2 0) = true →
      c.shouldHaveCountRun n (fun _ => d2) start2 now2 fuel2
        = some (.ret 1)) := by
  refine ⟨?_, ?_, ?_⟩
  · intro domAt domAt2 h count st nw f
    have hch : (fun k => (Except.ok (countCheck count
          (c.resolveLive (domAt k)).length) : Except JsError (Option JsPlainError)))
        = fun k => Except.ok (countCheck count (c.resolveLive (domAt2 k)).length) :=
      funext fun k => by
        simp only [ElementHandles.resolveLive]
        rw [h k]
    simp only [ElementHandles.shouldHaveCountRun]
    rw [hch]
  · intro hne hK hf hguard hstop
    have h := pollAux_never c.options.matchingTimeout start1 now1
      (fun k => .ok (countCheck n (c.resolveLive ((fun _ => d1) k)).length))
      (fun _ => ⟨countMsg n ((c.resolveLive d1).length)⟩) K
      hstop fuel1 0 none (Nat.zero_le K) (by omega)
      (fun k _ _ => by simp [countCheck, hne])
      (fun k _ hk => hguard k hk)
    simp only [ElementHandles.shouldHaveCountRun]
    rw [h, if_pos hK]
  · intro heq hf hg0
    have h := pollAux_success c.options.matchingTimeout start2 now2
      (fun k => .ok (countCheck n (c.resolveLive ((fun _ => d2) k)).length))
      (fun _ => ⟨countMsg n ((c.resolveLive d2).length)⟩) 0
      (by simp [countCheck, heq]) fuel2 0 none le_rfl (by omega)
      (fun k _ hk => by omega)
      (fun k hk1 hk2 => by
        have : k = 0 := by omega
        subst this
        exact hg0)
    simp only [ElementHandles.shouldHaveCountRun]
    exact h

/-- Witness for claim C5: the same collection object observes one `li`
under the first DOM (and rejects a count of 2), then two under the mutated
DOM (and resolves); the first part is instantiated with two DOM histories
that agree on the collection's parent and selector. -/
theorem claim_lazy_no_cache_witness :
    ElementHandles.shouldHaveCountRun ⟨"li", .page 0, ⟨some 250⟩⟩ 2
        (fun _ => fun _ _ => [7]) 0 (fun k => 100 * (k : Int)) 4
      = ElementHandles.shouldHaveCountRun ⟨"li", .page 0, ⟨some 250⟩⟩ 2
        (fun _ => fun _ s => if s = "li" then [7] else []) 0
        (fun k => 100 * (k : Int)) 4 ∧
    ElementHandles.shouldHaveCountRun ⟨"li", .page 0, ⟨some 250⟩⟩ 2
        (fun _ => fun _ _ => [7]) 0 (fun k => 100 * (k : Int)) 4
      = some (.thrown (some ⟨countMsg 2 1⟩) 3) ∧
    ElementHandles.shouldHaveCountRun ⟨"li", .page 0, ⟨some 250⟩⟩ 2
        (fun _ => fun _ _ => [7, 8]) 0 (fun _ => 0) 1
      = some (.ret 1) := by
  refine ⟨?_, ?_, ?_⟩
  · exact (claim_lazy_no_cache ⟨"li", .page 0, ⟨some 250⟩⟩ 2
      (fun _ _ => [7]) (fun _ _ => [7, 8]) 0 (fun k => 100 * (k : Int)) 3 4
      0 (fun _ => 0) 1).1 (fun _ => fun _ _ => [7])
      (fun _ => fun _ s => if s = "li" then [7] else [])
      (fun _ => rfl) 2 0 (fun k => 100 * (k : Int)) 4
  · exact (claim_lazy_no_cache ⟨"li", .page 0, ⟨some 250⟩⟩ 2
      (fun _ _ => [7]) (fun _ _ => [7, 8]) 0 (fun k => 100 * (k : Int)) 3 4
      0 (fun _ => 0) 1).2.1 (by decide) (by decide) (by decide)
      (by decide) (by decide)
  · exact (claim_lazy_no_cache ⟨"li", .page 0, ⟨some 250⟩⟩ 2
      (fun _ _ => [7]) (fun _ _ => [7, 8]) 0 (fun k => 100 * (k : Int)) 3 4
      0 (fun _ => 0) 1).2.2 (by decide) (by decide) (by decide)

/-- Claim C4 (code bug): `get(index)` never returns an element.  Because
the `await` in `await this.parent.$$(this.selector)[index]` applies after
the member access, the index is read from the pending Promise object and
yields `undefined`; `wrapElementHandle(undefined, ...)` then throws a
`TypeError` on line 206.  Evaluated here at the failing input `get(0)` on a
collection whose selector matches exactly one element — where the spec says
the wrapped first element is returned (`getIntended`). -/
theorem claim_get_bug :
    ElementHandles.getRun ⟨"li", .page 0, ⟨some 10000⟩⟩ (fun _ _ => [7]) 0
      = .error (.typeError "Cannot read properties of undefined (reading __proto__)") ∧
    ElementHandles.getIntended ⟨"li", .page 0, ⟨some 10000⟩⟩ (fun _ _ => [7]) 0
      = some (wrapElementHandle 7 ⟨some 10000⟩) ∧
    (∀ dom : DomQuery, ∀ index : Nat,
      ElementHandles.getRun ⟨"li", .page 0, ⟨some 10000⟩⟩ dom index
        = .error (.typeError "Cannot read properties of undefined (reading __proto__)")) := by
  exact ⟨rfl, rfl, fun _ _ => rfl⟩

/-- Claim C6 counterexample: calling `launch` with an options object that
does not supply a `matchingTimeout` (`launch({})`) does not default it to
10000 ms — the object is truthy, so `options || { matchingTimeout: 10000 }`
keeps it and the timeout stays `undefined`. -/
theorem claim_default_timeout_cex :
    (launchRun (some ⟨none⟩) 0).options.matchingTimeout = none ∧
    (launchRun (some ⟨none⟩) 0).options.matchingTimeout ≠ some 10000 := by
  exact ⟨rfl, by decide⟩

/-- Claim C6 as amended: `launch` accepts an optional options argument;
the 10000 ms default applies exactly when no options argument is supplied
at all, and then every wrapped object created from the browser carries it;
a supplied options object is used as-is. -/
theorem claim_default_timeout_amended (o : LaunchOptions) (nb np nel : Nat) :
    (launchRun none nb).options.matchingTimeout = some 10000 ∧
    ((launchRun none nb).newPage np).options.matchingTimeout = some 10000 ∧
    (((launchRun none nb).newPage np).dollarOne nel).options.matchingTimeout
      = some 10000 ∧
    (((launchRun none nb).newPage np).dollarLazy "li").options.matchingTimeout
      = some 10000 ∧
    launchRun (some o) nb = wrapBrowser nb o := by
  exact ⟨rfl, rfl, rfl, rfl, rfl⟩

/-- Claim C8: every wrapped object created from another wrapped object —
pages from `newPage`, elements from `$` and `$$` on pages and elements,
lazy collections from `$$lazy`, elements wrapped by `forEach`, and the
options `get` hands to `wrapElementHandle` — carries the same
`matchingTimeout` configuration as its creator; the configuration is a
plain immutable value, never re-read after browser creation. -/
theorem claim_options_inherited
    (b : WBrowser) (p : WPage) (el : WElement) (c : ElementHandles)
    (np nel : Nat) (nels : List Nat) (sel : String) (dom : DomQuery) (i : Nat) :
    (b.newPage np).options = b.options ∧
    (p.dollarOne nel).options = p.options ∧
    (∀ w ∈ p.dollarAll nels, w.options = p.options) ∧
    (p.dollarLazy sel).options = p.options ∧
    (el.dollarOne nel).options = el.options ∧
    (∀ w ∈ el.dollarAll nels, w.options = el.options) ∧
    (el.dollarLazy sel).options = el.options ∧
    (∀ w ∈ c.forEachWrapped dom, w.options = c.options) ∧
    c.getRun dom i
      = wrapElementHandleVal (promiseIndexAccess (c.resolveLive dom) i) c.options := by
  refine ⟨rfl, rfl, ?_, rfl, rfl, ?_, rfl, ?_, rfl⟩
  · intro w hw
    simp only [WPage.dollarAll, List.mem_map] at hw
    obtain ⟨r, _, rfl⟩ := hw
    rfl
  · intro w hw
    simp only [WElement.dollarAll, List.mem_map] at hw
    obtain ⟨r, _, rfl⟩ := hw
    rfl
  · intro w hw
    simp only [ElementHandles.forEachWrapped, List.mem_map] at hw
    obtain ⟨r, _, rfl⟩ := hw
    rfl

/-- Witness for claim C8, on concrete wrapped objects sharing the
configuration `{ matchingTimeout: some 42 }`. -/
theorem claim_options_inherited_witness :
    (WBrowser.newPage ⟨0, ⟨some 42⟩⟩ 1).options = (⟨some 42⟩ : LaunchOptions) ∧
    (WPage.dollarAll ⟨1, ⟨some 42⟩⟩ [7]).all
      (fun w => w.options == (⟨some 42⟩ : LaunchOptions)) = true ∧
    WElement.options (wrapElementHandle 7 ⟨some 42⟩) = (⟨some 42⟩ : LaunchOptions) ∧
    (ElementHandles.forEachWrapped ⟨"li", .page 1, ⟨some 42⟩⟩ (fun _ _ => [7, 8])).all
      (fun w => w.options == (⟨some 42⟩ : LaunchOptions)) = true := by
  have h := claim_options_inherited ⟨0, ⟨some 42⟩⟩ ⟨1, ⟨some 42⟩⟩
    (wrapElementHandle 7 ⟨some 42⟩) ⟨"li", .page 1, ⟨some 42⟩⟩
    1 7 [7] "li" (fun _ _ => [7, 8]) 0
  refine ⟨h.1, ?_, ?_, ?_⟩
  · have h7 := h.2.2.1 ⟨7, ⟨some 42⟩⟩ (by decide)
    simp [WPage.dollarAll, wrapElementHandle, h7]
  · exact (h.2.2.2.2.1 : _)
  · have ha := h.2.2.2.2.2.2.2.1 ⟨7, ⟨some 42⟩⟩ (by decide)
    have hb := h.2.2.2.2.2.2.2.1 ⟨8, ⟨some 42⟩⟩ (by decide)
    simp [ElementHandles.forEachWrapped, ElementHandles.resolveLive,
      wrapElementHandle, ha, hb]

end Ventriloquism
